import Mathlib

/-!
Shallow embedding of the tsddns program (src/main.go): a tool that resolves
symbolic nameserver references (service names, device hostnames, literal IPs)
against a remote API and pushes the resulting split-DNS table.

Go strings are modelled as Lean `String`; `strings.HasPrefix` / `strings.TrimPrefix`
are modelled over the character list (`hasPfx` / `trimPfx`), which agrees with the
byte-level Go semantics on the prefixes used here. Go maps (the JSON config and the
split-DNS request) are modelled as association lists carrying one fixed iteration
order; JSON object keys are distinct so no collapsing occurs. Remote I/O is modelled
by oracles: an HTTP responder `Env.http` keyed by the request URL, a device-list
fetch result `Env.devList`, and a split-DNS submit function. Every function that
performs remote I/O in Go additionally returns the list of observable remote events
(`Event`) it produced, in order.
-/

instance {ε α : Type} [DecidableEq ε] [DecidableEq α] : DecidableEq (Except ε α) := fun a b =>
  match a, b with
  | Except.error e, Except.error f =>
    if h : e = f then Decidable.isTrue (h ▸ rfl)
    else Decidable.isFalse fun k => h (Except.error.inj k)
  | Except.error _, Except.ok _ => Decidable.isFalse Except.noConfusion
  | Except.ok _, Except.error _ => Decidable.isFalse Except.noConfusion
  | Except.ok x, Except.ok y =>
    if h : x = y then Decidable.isTrue (h ▸ rfl)
    else Decidable.isFalse fun k => h (Except.ok.inj k)

-- Model of Go `strings.HasPrefix s pre`.
def hasPfx (s pre : String) : Bool :=
  pre.data.isPrefixOf s.data

-- Model of Go `strings.TrimPrefix s pre`.
def trimPfx (s pre : String) : String :=
  if hasPfx s pre then ⟨s.data.drop pre.data.length⟩ else s

-- `ServiceInfo` from main.go: `{Name string; Addrs []string}`.
structure ServiceInfo where
  name : String
  addrs : List String
deriving DecidableEq, Repr

-- The fields of `tailscale.Device` that main.go reads: Name, Hostname, Addresses.
structure Device where
  name : String
  hostname : String
  addresses : List String
deriving DecidableEq, Repr

-- `Config` from main.go is `map[string][]string`; modelled as an association list
-- (domain, references) in the iteration order of the map.
abbrev Config := List (String × List String)

-- `tailscale.SplitDNSRequest`, likewise an association list domain → addresses.
abbrev SplitDNSRequest := List (String × List String)

-- Observable remote-interaction events of one run, in order of occurrence.
inductive Event where
  | devFetch
  | svcGet (url : String)
  | devMatch (hostname : String)
  | setSplit (table : SplitDNSRequest)
deriving DecidableEq, Repr

-- Outcome of one HTTP GET: transport error, or a status code with an optionally
-- decodable `ServiceInfo` body (`none` = JSON decode failure).
inductive HttpResult where
  | netErr (msg : String)
  | resp (status : Nat) (body : Option ServiceInfo)
deriving DecidableEq, Repr

-- The remote world one resolution pass runs against.
structure Env where
  http : String → HttpResult
  devList : Except String (List Device)

-- `clientcredentials.Config` as set up by createClient.
structure OAuthCfg where
  clientID : String
  clientSecret : String
  tokenURL : String
deriving DecidableEq, Repr

-- The fields of `tailscale.Client` that main.go sets and reads.
structure ClientM where
  tailnet : String
  baseURL : String
  apiKey : String
  oauth : Option OAuthCfg
deriving DecidableEq, Repr

-- `createClient` from main.go; `parse` models `url.Parse` (`none` = parse error,
-- `some u` = the parsed URL rendered back by `BaseURL.String()`).
def createClient (parse : String → Option String)
    (tailnet apiKey clientID clientSecret baseURL : String) : Except String ClientM :=
  match parse baseURL with
  | none => Except.error "invalid base URL"
  | some parsedURL =>
    if clientID ≠ "" ∧ clientSecret ≠ "" then
      Except.ok { tailnet := tailnet, baseURL := parsedURL, apiKey := "",
                  oauth := some { clientID := clientID, clientSecret := clientSecret,
                                  tokenURL := baseURL ++ "/api/v2/oauth/token" } }
    else if apiKey ≠ "" then
      Except.ok { tailnet := tailnet, baseURL := parsedURL, apiKey := apiKey, oauth := none }
    else
      Except.error "need either api key or oauth creds"

-- The URL built by `getServiceIP` via fmt.Sprintf.
def serviceURL (baseURL tailnet serviceName : String) : String :=
  baseURL ++ "/api/v2/tailnet/" ++ tailnet ++ "/services/" ++ serviceName ++ "/"

-- `getServiceIP` from main.go. Returns the HTTP requests it issued plus the result.
-- The request is sent iff an API key or an OAuth HTTP client is configured.
def getServiceIP (client : ClientM) (http : String → HttpResult) (serviceName : String) :
    List Event × Except String String :=
  let url := serviceURL client.baseURL client.tailnet serviceName
  if client.apiKey ≠ "" ∨ client.oauth.isSome then
    ([Event.svcGet url],
      match http url with
      | HttpResult.netErr m => Except.error m
      | HttpResult.resp status body =>
        if status ≠ 200 then Except.error ("API returned status " ++ toString status)
        else
          match body with
          | none => Except.error "decoding response body"
          | some svcInfo =>
            match svcInfo.addrs with
            | [] => Except.error ("service " ++ serviceName ++ " has no addresses")
            | a :: _ => Except.ok a)
  else
    ([], Except.error "no auth configured")

-- `getDeviceIP` from main.go: scan the device list in order; a device matches when
-- its hostname equals the query, or its name equals the query, or its name starts
-- with the query followed by a dot.
def getDeviceIP (hostname : String) : List Device → Except String String
  | [] => Except.error ("device " ++ hostname ++ " not found")
  | device :: rest =>
    if device.hostname = hostname ∨ device.name = hostname ∨
        hasPfx device.name (hostname ++ ".") = true then
      match device.addresses with
      | [] => Except.error ("device " ++ hostname ++ " has no addresses")
      | a :: _ => Except.ok a
    else getDeviceIP hostname rest

-- The per-device match condition of getDeviceIP, as a boolean predicate.
def deviceMatches (hostname : String) (device : Device) : Bool :=
  device.hostname == hostname || device.name == hostname ||
    hasPfx device.name (hostname ++ ".")

/-- Modelled from the spec: device resolution with criterion precedence — first all
devices are searched for an exact hostname match, then all for an exact display-name
match, then all for a dot-terminated display-name-prefix match; named here to be
compared with `getDeviceIP`, which the source defines by a single scan. -/
def getDeviceIPSpecOrder (hostname : String) (devices : List Device) :
    Except String String :=
  match (devices.find? fun d => d.hostname == hostname).orElse
      (fun _ => (devices.find? fun d => d.name == hostname).orElse
        (fun _ => devices.find? fun d => hasPfx d.name (hostname ++ "."))) with
  | none => Except.error ("device " ++ hostname ++ " not found")
  | some d =>
    match d.addresses with
    | [] => Except.error ("device " ++ hostname ++ " has no addresses")
    | a :: _ => Except.ok a

-- The pre-scan of resolveSplitDNS: does any reference anywhere carry "device:"?
def needsDevices (cfg : Config) : Bool :=
  cfg.any fun p => p.2.any fun ns => hasPfx ns "device:"

-- The inner loop of resolveSplitDNS over the reference list of one domain.
def resolveRefs (client : ClientM) (env : Env) (devices : List Device) :
    List String → List Event × Except String (List String)
  | [] => ([], Except.ok [])
  | ns :: rest =>
    if hasPfx ns "svc:" then
      let s := getServiceIP client env.http ns
      match s.2 with
      | Except.error e => (s.1, Except.error ("resolving service " ++ ns ++ ": " ++ e))
      | Except.ok ip =>
        let r := resolveRefs client env devices rest
        (s.1 ++ r.1, Except.map (fun ips => ip :: ips) r.2)
    else if hasPfx ns "device:" then
      match getDeviceIP (trimPfx ns "device:") devices with
      | Except.error e =>
        ([Event.devMatch (trimPfx ns "device:")],
          Except.error ("resolving device " ++ trimPfx ns "device:" ++ ": " ++ e))
      | Except.ok ip =>
        let r := resolveRefs client env devices rest
        (Event.devMatch (trimPfx ns "device:") :: r.1, Except.map (fun ips => ip :: ips) r.2)
    else
      let r := resolveRefs client env devices rest
      (r.1, Except.map (fun ips => ns :: ips) r.2)

-- The outer loop of resolveSplitDNS over the domains of the config.
def resolveDomains (client : ClientM) (env : Env) (devices : List Device) :
    Config → List Event × Except String SplitDNSRequest
  | [] => ([], Except.ok [])
  | (domain, nameservers) :: rest =>
    let r := resolveRefs client env devices nameservers
    match r.2 with
    | Except.error e => (r.1, Except.error e)
    | Except.ok ips =>
      let rr := resolveDomains client env devices rest
      (r.1 ++ rr.1, Except.map (fun tbl => (domain, ips) :: tbl) rr.2)

-- `resolveSplitDNS` from main.go: pre-scan, optional single device-list fetch,
-- then the resolution loops.
def resolveSplitDNS (client : ClientM) (env : Env) (cfg : Config) :
    List Event × Except String SplitDNSRequest :=
  if needsDevices cfg then
    match env.devList with
    | Except.error e => ([Event.devFetch], Except.error ("listing devices: " ++ e))
    | Except.ok devices =>
      let r := resolveDomains client env devices cfg
      (Event.devFetch :: r.1, r.2)
  else
    resolveDomains client env [] cfg

-- `updateDNS` from main.go: resolve, then submit via `SetSplitDNS` (modelled by
-- the oracle `setSplitDNS`) only when resolution succeeded.
def updateDNS (client : ClientM) (env : Env)
    (setSplitDNS : SplitDNSRequest → Except String Unit) (cfg : Config) :
    List Event × Except String Unit :=
  let r := resolveSplitDNS client env cfg
  match r.2 with
  | Except.error e => (r.1, Except.error ("resolving services: " ++ e))
  | Except.ok table =>
    (r.1 ++ [Event.setSplit table],
      match setSplitDNS table with
      | Except.error e => Except.error ("updating split DNS: " ++ e)
      | Except.ok _ => Except.ok ())

-- Outcome of `main` as observable from outside: which log.Fatalf fired (non-zero
-- exit), a completed one-shot run, or a daemon still alive after the observed
-- ticks with the per-tick errors it logged.
inductive RunResult where
  | fatalConfig (e : String)
  | fatalClient (e : String)
  | fatalCycle (e : String)
  | oneShotDone
  | daemonAlive (tickErrors : List (Nat × String))
deriving DecidableEq, Repr

-- The daemon loop: run the cycle on every tick, log (collect) errors, never stop.
-- `fuel` is the number of observed ticks; the Go loop is unbounded.
def daemonTicks (cycle : Nat → Except String Unit) : Nat → Nat → List (Nat × String)
  | _, 0 => []
  | n, fuel + 1 =>
    match cycle n with
    | Except.error e => (n, e) :: daemonTicks cycle (n + 1) fuel
    | Except.ok _ => daemonTicks cycle (n + 1) fuel

-- `main` from main.go after flag parsing: config load result, client construction,
-- then one-shot or daemon mode depending on the interval. `envs`/`setters` give the
-- remote world at each tick (tick 0 is the immediate run before the ticker).
def runMain (parse : String → Option String)
    (tailnet apiKey clientID clientSecret baseURL : String)
    (configR : Except String Config) (interval : Nat)
    (envs : Nat → Env) (setters : Nat → SplitDNSRequest → Except String Unit)
    (fuel : Nat) : RunResult :=
  match configR with
  | Except.error e => RunResult.fatalConfig e
  | Except.ok cfg =>
    match createClient parse tailnet apiKey clientID clientSecret baseURL with
    | Except.error e => RunResult.fatalClient e
    | Except.ok client =>
      if interval > 0 then
        RunResult.daemonAlive
          (daemonTicks (fun n => (updateDNS client (envs n) (setters n) cfg).2) 0 fuel)
      else
        match (updateDNS client (envs 0) (setters 0) cfg).2 with
        | Except.error e => RunResult.fatalCycle e
        | Except.ok _ => RunResult.oneShotDone

-- Did the process exit non-zero (some log.Fatalf fired)?
def RunResult.isFatal : RunResult → Bool
  | RunResult.fatalConfig _ => true
  | RunResult.fatalClient _ => true
  | RunResult.fatalCycle _ => true
  | _ => false

-- The URLs of the service lookups in an event trace, in order.
def svcURLs (evs : List Event) : List String :=
  evs.filterMap fun e => match e with | Event.svcGet u => some u | _ => none

-- The hostnames device resolution was invoked on in an event trace, in order.
def devNames (evs : List Event) : List String :=
  evs.filterMap fun e => match e with | Event.devMatch h => some h | _ => none

-- Number of "svc:"-prefixed references across all domains of a config.
def svcRefCount (cfg : Config) : Nat :=
  (cfg.map fun p => (p.2.filter fun ns => hasPfx ns "svc:").length).sum

-- Concrete fixtures used by the witness and counterexample theorems.

def litClient : ClientM := ⟨"test", "https://x", "test-key", none⟩

def litEnv : Env := ⟨fun _ => HttpResult.netErr "no server", Except.error "no server"⟩

def cfgLit : Config :=
  [("direct.example.com", ["192.168.1.1"]), ("multi.example.com", ["192.168.1.1", "192.168.1.2"])]

def cfgDev : Config := [("d.example.com", ["device:test-device"])]

def cfgBoth : Config :=
  [("s.example.com", ["svc:test-service"]), ("d.example.com", ["device:test-device"])]

def cfgDup : Config := [("a.example.com", ["svc:test-service", "svc:test-service"])]

def e2eClient : ClientM := ⟨"test", "https://x", "test-key", none⟩

def e2eEnv : Env :=
  ⟨fun url =>
      if url = serviceURL "https://x" "test" "svc:test-service" then
        HttpResult.resp 200 (some ⟨"svc:test-service", ["100.64.0.1"]⟩)
      else if url = serviceURL "https://x" "test" "svc:empty" then
        HttpResult.resp 200 (some ⟨"svc:empty", []⟩)
      else if url = serviceURL "https://x" "test" "svc:down" then
        HttpResult.netErr "boom"
      else
        HttpResult.resp 404 none,
    Except.ok [⟨"", "test-device", ["100.64.0.2"]⟩]⟩

def cexDevices : List Device := [⟨"a.b", "x", ["ip1"]⟩, ⟨"y", "a", ["ip2"]⟩]

-- Shared helper lemmas about the embedding.

theorem hasPfx_svc_not_device (ns : String) (h : hasPfx ns "svc:" = true) :
    hasPfx ns "device:" = false := by
  simp only [hasPfx, List.isPrefixOf_iff_prefix] at h
  simp only [hasPfx]
  rw [Bool.eq_false_iff, Ne, List.isPrefixOf_iff_prefix]
  intro hd
  rcases h with ⟨t1, h1⟩
  rcases hd with ⟨t2, h2⟩
  rw [← h1] at h2
  simp at h2

theorem getServiceIP_events (client : ClientM) (http : String → HttpResult) (ns : String) :
    (getServiceIP client http ns).1 = [] ∨
    (getServiceIP client http ns).1 =
      [Event.svcGet (serviceURL client.baseURL client.tailnet ns)] := by
  by_cases hc : client.apiKey ≠ "" ∨ client.oauth.isSome <;> simp [getServiceIP, hc]

theorem getServiceIP_events_ok (client : ClientM) (http : String → HttpResult) (ns ip : String)
    (h : (getServiceIP client http ns).2 = Except.ok ip) :
    (getServiceIP client http ns).1 =
      [Event.svcGet (serviceURL client.baseURL client.tailnet ns)] := by
  by_cases hc : client.apiKey ≠ "" ∨ client.oauth.isSome
  · simp [getServiceIP, hc]
  · simp [getServiceIP, hc] at h

theorem resolveRefs_events (client : ClientM) (env : Env) (devices : List Device)
    (refs : List String) :
    ∀ e ∈ (resolveRefs client env devices refs).1,
      (∃ u, e = Event.svcGet u) ∨ (∃ h, e = Event.devMatch h) := by
  induction refs with
  | nil => simp [resolveRefs]
  | cons ns rest ih =>
    intro e he
    by_cases hs : hasPfx ns "svc:"
    · cases hg : (getServiceIP client env.http ns).2 with
      | error err =>
        simp only [resolveRefs, hs, if_true, hg] at he
        rcases getServiceIP_events client env.http ns with hev | hev <;> rw [hev] at he <;>
          simp at he
        exact Or.inl ⟨_, he⟩
      | ok ip =>
        simp only [resolveRefs, hs, if_true, hg, List.mem_append] at he
        rcases he with he | he
        · rcases getServiceIP_events client env.http ns with hev | hev <;> rw [hev] at he <;>
            simp at he
          exact Or.inl ⟨_, he⟩
        · exact ih e he
    · by_cases hd : hasPfx ns "device:"
      · cases hg : getDeviceIP (trimPfx ns "device:") devices with
        | error err =>
          simp only [resolveRefs, hs, hd, if_true, Bool.false_eq_true, if_false, hg] at he
          simp at he
          exact Or.inr ⟨_, he⟩
        | ok ip =>
          simp only [resolveRefs, hs, hd, if_true, Bool.false_eq_true, if_false, hg,
            List.mem_cons] at he
          rcases he with he | he
          · exact Or.inr ⟨_, he⟩
          · exact ih e he
      · simp only [resolveRefs, hs, hd, Bool.false_eq_true, if_false] at he
        exact ih e he

theorem resolveDomains_events (client : ClientM) (env : Env) (devices : List Device)
    (cfg : Config) :
    ∀ e ∈ (resolveDomains client env devices cfg).1,
      (∃ u, e = Event.svcGet u) ∨ (∃ h, e = Event.devMatch h) := by
  induction cfg with
  | nil => simp [resolveDomains]
  | cons p rest ih =>
    intro e he
    rcases p with ⟨domain, nameservers⟩
    rw [resolveDomains] at he
    cases hr : (resolveRefs client env devices nameservers).2 with
    | error err =>
      rw [hr] at he
      simp only at he
      exact resolveRefs_events client env devices nameservers e he
    | ok ips =>
      rw [hr] at he
      simp only [List.mem_append] at he
      rcases he with he | he
      · exact resolveRefs_events client env devices nameservers e he
      · exact ih e he

theorem needsDevices_iff (cfg : Config) :
    needsDevices cfg = true ↔ ∃ p ∈ cfg, ∃ ns ∈ p.2, hasPfx ns "device:" = true := by
  simp [needsDevices, List.any_eq_true]

theorem resolveRefs_literal (client : ClientM) (env : Env) (devices : List Device)
    (refs : List String)
    (h : ∀ ns ∈ refs, hasPfx ns "svc:" = false ∧ hasPfx ns "device:" = false) :
    resolveRefs client env devices refs = ([], Except.ok refs) := by
  induction refs with
  | nil => simp [resolveRefs]
  | cons ns rest ih =>
    have h1 := (h ns (List.mem_cons_self ns rest)).1
    have h2 := (h ns (List.mem_cons_self ns rest)).2
    have ih2 := ih fun x hx => h x (List.mem_cons_of_mem ns hx)
    simp only [resolveRefs, h1, h2, Bool.false_eq_true, if_false, ih2]
    simp [Except.map]

theorem resolveDomains_literal (client : ClientM) (env : Env) (devices : List Device)
    (cfg : Config)
    (h : ∀ p ∈ cfg, ∀ ns ∈ p.2, hasPfx ns "svc:" = false ∧ hasPfx ns "device:" = false) :
    resolveDomains client env devices cfg = ([], Except.ok cfg) := by
  induction cfg with
  | nil => simp [resolveDomains]
  | cons p rest ih =>
    rcases p with ⟨domain, nameservers⟩
    have h1 := resolveRefs_literal client env devices nameservers fun ns hns =>
      h _ (List.mem_cons_self _ _) ns hns
    have ih2 := ih fun q hq => h q (List.mem_cons_of_mem _ hq)
    simp only [resolveDomains, h1, ih2]
    simp [Except.map]

/-- C5: for every config whose references all lack the `svc:` and `device:` prefixes,
the resolution pass succeeds, makes no remote calls, and the output table has exactly
one entry per input domain whose address list equals the input reference list
element-for-element, in the same order, with the strings unmodified. -/
theorem C5_literal_passthrough (client : ClientM) (env : Env) (cfg : Config)
    (h : ∀ p ∈ cfg, ∀ ns ∈ p.2, hasPfx ns "svc:" = false ∧ hasPfx ns "device:" = false) :
    resolveSplitDNS client env cfg = ([], Except.ok cfg) := by
  have hnd : needsDevices cfg = false := by
    rw [Bool.eq_false_iff]
    intro hT
    rcases (needsDevices_iff cfg).mp hT with ⟨p, hp, ns, hns, hdev⟩
    rw [(h p hp ns hns).2] at hdev
    exact Bool.noConfusion hdev
  rw [resolveSplitDNS, if_neg (by simp [hnd])]
  exact resolveDomains_literal client env [] cfg h

/-- Witness for C5 at a concrete literal-only config. -/
theorem C5_literal_passthrough_witness :
    resolveSplitDNS litClient litEnv cfgLit = ([], Except.ok cfgLit) :=
  C5_literal_passthrough litClient litEnv cfgLit (by decide)

theorem hasPfx_append (pre s : String) : hasPfx (pre ++ s) pre = true := by
  simp [hasPfx, String.data_append, List.isPrefixOf_iff_prefix]

theorem trimPfx_append (pre s : String) : trimPfx (pre ++ s) pre = s := by
  simp [trimPfx, hasPfx, String.data_append, List.isPrefixOf_iff_prefix, List.drop_left]

theorem hasPfx_device_not_svc (ns : String) (h : hasPfx ns "device:" = true) :
    hasPfx ns "svc:" = false := by
  simp only [hasPfx, List.isPrefixOf_iff_prefix] at h
  simp only [hasPfx]
  rw [Bool.eq_false_iff, Ne, List.isPrefixOf_iff_prefix]
  intro hd
  rcases h with ⟨t1, h1⟩
  rcases hd with ⟨t2, h2⟩
  rw [← h1] at h2
  simp at h2

/-- C1 (counterexample): the device list `cexDevices` holds first a device whose
display name "a.b" matches "a" only by the dot-terminated-prefix criterion (c), and
second a device whose hostname is exactly "a" (criterion (a), with address "ip2").
Under the claimed criterion precedence the exact-hostname device must win, yet the
code returns address "ip1" of the first device: resolution is by device-list order
over a per-device disjunction, not by criterion precedence. -/
theorem C1_device_match_order_cex :
    getDeviceIP "a" cexDevices = Except.ok "ip1" ∧
    getDeviceIPSpecOrder "a" cexDevices = Except.ok "ip2" ∧
    getDeviceIP "a" cexDevices ≠ getDeviceIPSpecOrder "a" cexDevices :=
  ⟨by decide, by decide, by decide⟩

/-- C1 (amended): for every `device:` reference and every device list, resolution
scans the fetched device list in order and selects the first device satisfying any
of: exact hostname match, exact display-name match, or display-name having the
hostname as a dot-terminated prefix (a per-device disjunction — device-list order,
not criterion precedence, decides which device wins); the result is the first entry
of the address list of the matched device; if no device matches, or the matched device
has zero addresses, resolution fails with an error and the whole pass aborts. -/
theorem C1_device_resolution_first_match (hostname : String) (devices : List Device) :
    (match devices.find? (deviceMatches hostname) with
      | none => getDeviceIP hostname devices =
          Except.error ("device " ++ hostname ++ " not found")
      | some d =>
        match d.addresses with
        | [] => getDeviceIP hostname devices =
            Except.error ("device " ++ hostname ++ " has no addresses")
        | a :: _ => getDeviceIP hostname devices = Except.ok a) ∧
    (∀ (client : ClientM) (env : Env) (rest : List String) (e : String),
      getDeviceIP hostname devices = Except.error e →
      (resolveRefs client env devices (("device:" ++ hostname) :: rest)).2 =
        Except.error ("resolving device " ++ hostname ++ ": " ++ e)) := by
  constructor
  · induction devices with
    | nil => simp [getDeviceIP]
    | cons d rest ih =>
      by_cases hcond : d.hostname = hostname ∨ d.name = hostname ∨
          hasPfx d.name (hostname ++ ".") = true
      · have hm : deviceMatches hostname d = true := by
          simp only [deviceMatches, Bool.or_eq_true, beq_iff_eq]
          tauto
        rw [List.find?_cons_of_pos _ hm]
        cases ha : d.addresses with
        | nil => simp [getDeviceIP, hcond, ha]
        | cons a as => simp [getDeviceIP, hcond, ha]
      · have hm : ¬(deviceMatches hostname d = true) := by
          simp only [deviceMatches, Bool.or_eq_true, beq_iff_eq]
          tauto
        rw [List.find?_cons_of_neg _ hm]
        rw [getDeviceIP, if_neg hcond]
        exact ih
  · intro client env rest e he
    have hp : hasPfx ("device:" ++ hostname) "device:" = true := hasPfx_append _ _
    have hs : hasPfx ("device:" ++ hostname) "svc:" = false := hasPfx_device_not_svc _ hp
    have ht : trimPfx ("device:" ++ hostname) "device:" = hostname := trimPfx_append _ _
    simp only [resolveRefs, hs, Bool.false_eq_true, if_false, hp, if_true, ht, he]

/-- Witness for C1 (amended) at a concrete unmatched hostname. -/
theorem C1_device_resolution_first_match_witness :
    (resolveRefs litClient litEnv cexDevices (("device:" ++ "zzz") :: [])).2 =
      Except.error ("resolving device " ++ "zzz" ++ ": " ++ "device zzz not found") :=
  (C1_device_resolution_first_match "zzz" cexDevices).2 litClient litEnv []
    "device zzz not found" (by decide)

theorem resolveSplitDNS_no_setSplit (client : ClientM) (env : Env) (cfg : Config)
    (t : SplitDNSRequest) : Event.setSplit t ∉ (resolveSplitDNS client env cfg).1 := by
  intro hmem
  by_cases hnd : needsDevices cfg = true
  · cases hd : env.devList with
    | error e =>
      simp only [resolveSplitDNS, hnd, if_true, hd] at hmem
      simp at hmem
    | ok devices =>
      simp only [resolveSplitDNS, hnd, if_true, hd, List.mem_cons] at hmem
      rcases hmem with h | h
      · exact Event.noConfusion h
      · rcases resolveDomains_events client env devices cfg _ h with ⟨u, hu⟩ | ⟨x, hx⟩
        · exact Event.noConfusion hu
        · exact Event.noConfusion hx
  · simp only [resolveSplitDNS, hnd, Bool.false_eq_true, if_false] at hmem
    rcases resolveDomains_events client env [] cfg _ hmem with ⟨u, hu⟩ | ⟨x, hx⟩
    · exact Event.noConfusion hu
    · exact Event.noConfusion hx

/-- C2: if resolving any reference in any domain fails, the resolution pass returns
an error and no split-DNS table is ever submitted for that cycle; conversely, any
table that reaches the submit call is exactly the fully resolved table, so the
update call is reached only when every reference in every domain resolved. -/
theorem C2_all_or_nothing (client : ClientM) (env : Env)
    (setSplitDNS : SplitDNSRequest → Except String Unit) (cfg : Config) :
    (∀ e, (resolveSplitDNS client env cfg).2 = Except.error e →
      (∀ t, Event.setSplit t ∉ (updateDNS client env setSplitDNS cfg).1) ∧
      (updateDNS client env setSplitDNS cfg).2 =
        Except.error ("resolving services: " ++ e)) ∧
    (∀ t, Event.setSplit t ∈ (updateDNS client env setSplitDNS cfg).1 →
      (resolveSplitDNS client env cfg).2 = Except.ok t) := by
  constructor
  · intro e he
    constructor
    · intro t hmem
      simp only [updateDNS, he] at hmem
      exact resolveSplitDNS_no_setSplit client env cfg t hmem
    · simp only [updateDNS, he]
  · intro t hmem
    cases hr : (resolveSplitDNS client env cfg).2 with
    | error e =>
      simp only [updateDNS, hr] at hmem
      exact absurd hmem (resolveSplitDNS_no_setSplit client env cfg t)
    | ok table =>
      simp only [updateDNS, hr, List.mem_append, List.mem_singleton] at hmem
      rcases hmem with h | h
      · exact absurd h (resolveSplitDNS_no_setSplit client env cfg t)
      · cases Event.setSplit.inj h
        rfl

/-- Witness for C2: a failing pass submits nothing; a successful pass submits the
fully resolved table. -/
theorem C2_all_or_nothing_witness :
    ((∀ t, Event.setSplit t ∉ (updateDNS litClient litEnv (fun _ => Except.ok ()) cfgDev).1) ∧
      (updateDNS litClient litEnv (fun _ => Except.ok ()) cfgDev).2 =
        Except.error ("resolving services: " ++ "listing devices: no server")) ∧
    (resolveSplitDNS e2eClient e2eEnv cfgBoth).2 =
      Except.ok [("s.example.com", ["100.64.0.1"]), ("d.example.com", ["100.64.0.2"])] :=
  ⟨(C2_all_or_nothing litClient litEnv (fun _ => Except.ok ()) cfgDev).1
      "listing devices: no server" (by decide),
    (C2_all_or_nothing e2eClient e2eEnv (fun _ => Except.ok ()) cfgBoth).2
      [("s.example.com", ["100.64.0.1"]), ("d.example.com", ["100.64.0.2"])] (by decide)⟩

theorem resolveDomains_count_devFetch (client : ClientM) (env : Env) (devices : List Device)
    (cfg : Config) : (resolveDomains client env devices cfg).1.count Event.devFetch = 0 := by
  rw [List.count_eq_zero]
  intro hmem
  rcases resolveDomains_events client env devices cfg _ hmem with ⟨u, hu⟩ | ⟨x, hx⟩
  · exact Event.noConfusion hu
  · exact Event.noConfusion hx

/-- C3: within one resolution pass the device-list fetch happens exactly once when
some reference anywhere in the config has the `device:` prefix and exactly zero
times otherwise (regardless of how many such references exist), and a failing fetch
aborts the whole pass with an error. -/
theorem C3_device_fetch_once (client : ClientM) (env : Env) (cfg : Config) :
    ((resolveSplitDNS client env cfg).1.count Event.devFetch =
      if needsDevices cfg = true then 1 else 0) ∧
    (needsDevices cfg = true ↔ ∃ p ∈ cfg, ∃ ns ∈ p.2, hasPfx ns "device:" = true) ∧
    (∀ e, needsDevices cfg = true → env.devList = Except.error e →
      resolveSplitDNS client env cfg =
        ([Event.devFetch], Except.error ("listing devices: " ++ e))) := by
  refine ⟨?_, needsDevices_iff cfg, ?_⟩
  · by_cases hnd : needsDevices cfg = true
    · rw [if_pos hnd]
      cases hd : env.devList with
      | error e => simp [resolveSplitDNS, hnd, hd]
      | ok devices =>
        simp only [resolveSplitDNS, hnd, if_true, hd]
        simp [List.count_cons, resolveDomains_count_devFetch]
    · rw [if_neg hnd]
      simp only [resolveSplitDNS, hnd, Bool.false_eq_true, if_false]
      exact resolveDomains_count_devFetch client env [] cfg
  · intro e hnd hd
    simp [resolveSplitDNS, hnd, hd]

/-- Witness for C3: one `device:` reference, failing fetch — one fetch event and a
pass-level error. -/
theorem C3_device_fetch_once_witness :
    resolveSplitDNS litClient litEnv cfgDev =
      ([Event.devFetch], Except.error ("listing devices: " ++ "no server")) :=
  (C3_device_fetch_once litClient litEnv cfgDev).2.2 "no server" (by decide) (by decide)

/-- C4: a `svc:` lookup returns the first entry of the returned address list when
the response has status 200 and a non-empty address list; a non-200 status or an
empty address list yields an error, and in the resolution loop that error aborts
the whole pass rather than producing an empty or omitted domain entry. -/
theorem C4_service_first_addr (client : ClientM) (env : Env) (serviceName : String) :
    (∀ info a rest, (client.apiKey ≠ "" ∨ client.oauth.isSome) →
      env.http (serviceURL client.baseURL client.tailnet serviceName) =
        HttpResult.resp 200 (some info) →
      info.addrs = a :: rest →
      (getServiceIP client env.http serviceName).2 = Except.ok a) ∧
    (∀ status body, (client.apiKey ≠ "" ∨ client.oauth.isSome) → status ≠ 200 →
      env.http (serviceURL client.baseURL client.tailnet serviceName) =
        HttpResult.resp status body →
      (getServiceIP client env.http serviceName).2 =
        Except.error ("API returned status " ++ toString status)) ∧
    (∀ info, (client.apiKey ≠ "" ∨ client.oauth.isSome) →
      env.http (serviceURL client.baseURL client.tailnet serviceName) =
        HttpResult.resp 200 (some info) →
      info.addrs = [] →
      (getServiceIP client env.http serviceName).2 =
        Except.error ("service " ++ serviceName ++ " has no addresses")) ∧
    (∀ (devices : List Device) (rest : List String) (e : String),
      hasPfx serviceName "svc:" = true →
      (getServiceIP client env.http serviceName).2 = Except.error e →
      (resolveRefs client env devices (serviceName :: rest)).2 =
        Except.error ("resolving service " ++ serviceName ++ ": " ++ e)) := by
  refine ⟨?_, ?_, ?_, ?_⟩
  · intro info a rest hc hh ha
    simp [getServiceIP, hc, hh, ha]
  · intro status body hc hst hh
    simp [getServiceIP, hc, hh, hst]
  · intro info hc hh ha
    simp [getServiceIP, hc, hh, ha]
  · intro devices rest e hs he
    simp only [resolveRefs, hs, if_true, he]

/-- Witness for C4: a 200 response with addresses yields the first address; an empty
address list and a failing lookup yield pass-aborting errors. -/
theorem C4_service_first_addr_witness :
    (getServiceIP e2eClient e2eEnv.http "svc:test-service").2 = Except.ok "100.64.0.1" ∧
    (getServiceIP e2eClient e2eEnv.http "svc:empty").2 =
      Except.error ("service " ++ "svc:empty" ++ " has no addresses") ∧
    (resolveRefs e2eClient e2eEnv [] ("svc:down" :: [])).2 =
      Except.error ("resolving service " ++ "svc:down" ++ ": " ++ "boom") :=
  ⟨(C4_service_first_addr e2eClient e2eEnv "svc:test-service").1
      ⟨"svc:test-service", ["100.64.0.1"]⟩ "100.64.0.1" [] (by decide) (by decide) (by decide),
    (C4_service_first_addr e2eClient e2eEnv "svc:empty").2.2.1
      ⟨"svc:empty", []⟩ (by decide) (by decide) (by decide),
    (C4_service_first_addr e2eClient e2eEnv "svc:down").2.2.2
      [] [] "boom" (by decide) (by decide)⟩

/-- C6: client construction fails when the base URL does not parse; with a parsed
URL it uses the OAuth client-credentials flow (token endpoint = base URL plus the
fixed path suffix) if and only if both client-id and client-secret are non-empty;
otherwise it uses the API key when non-empty; otherwise it fails with a
no-credentials error. -/
theorem C6_createClient_precedence (parse : String → Option String)
    (tailnet apiKey clientID clientSecret baseURL : String) :
    (parse baseURL = none →
      createClient parse tailnet apiKey clientID clientSecret baseURL =
        Except.error "invalid base URL") ∧
    (∀ u, parse baseURL = some u → clientID ≠ "" → clientSecret ≠ "" →
      createClient parse tailnet apiKey clientID clientSecret baseURL =
        Except.ok ⟨tailnet, u, "",
          some ⟨clientID, clientSecret, baseURL ++ "/api/v2/oauth/token"⟩⟩) ∧
    (∀ u, parse baseURL = some u → ¬(clientID ≠ "" ∧ clientSecret ≠ "") → apiKey ≠ "" →
      createClient parse tailnet apiKey clientID clientSecret baseURL =
        Except.ok ⟨tailnet, u, apiKey, none⟩) ∧
    (∀ u, parse baseURL = some u → ¬(clientID ≠ "" ∧ clientSecret ≠ "") → apiKey = "" →
      createClient parse tailnet apiKey clientID clientSecret baseURL =
        Except.error "need either api key or oauth creds") ∧
    (∀ c, createClient parse tailnet apiKey clientID clientSecret baseURL = Except.ok c →
      (c.oauth.isSome = true ↔ (clientID ≠ "" ∧ clientSecret ≠ ""))) := by
  refine ⟨?_, ?_, ?_, ?_, ?_⟩
  · intro hp
    simp [createClient, hp]
  · intro u hp h1 h2
    simp [createClient, hp, h1, h2]
  · intro u hp hno hk
    simp only [createClient, hp]
    rw [if_neg hno, if_pos hk]
  · intro u hp hno hk
    simp only [createClient, hp]
    rw [if_neg hno, if_neg (by simp [hk])]
  · intro c hc
    cases hp : parse baseURL with
    | none => simp [createClient, hp] at hc
    | some u =>
      by_cases hb : clientID ≠ "" ∧ clientSecret ≠ ""
      · simp only [createClient, hp, if_pos hb] at hc
        cases Except.ok.inj hc
        simp [hb.1, hb.2]
      · by_cases hk : apiKey ≠ ""
        · simp only [createClient, hp, if_neg hb, if_pos hk] at hc
          cases Except.ok.inj hc
          simp [hb]
        · simp only [createClient, hp, if_neg hb, if_neg hk] at hc
          exact Except.noConfusion hc

/-- Witness for C6: parse failure, OAuth precedence, and API-key fallback at
concrete credential combinations. -/
theorem C6_createClient_precedence_witness :
    createClient (fun s => if s = "bad" then none else some s) "t" "k" "id" "sec" "bad" =
      Except.error "invalid base URL" ∧
    createClient (fun s => if s = "bad" then none else some s) "t" "k" "id" "sec" "https://x" =
      Except.ok ⟨"t", "https://x", "",
        some ⟨"id", "sec", "https://x" ++ "/api/v2/oauth/token"⟩⟩ ∧
    createClient (fun s => if s = "bad" then none else some s) "t" "k" "id" "" "https://x" =
      Except.ok ⟨"t", "https://x", "k", none⟩ ∧
    createClient (fun s => if s = "bad" then none else some s) "t" "" "" "" "https://x" =
      Except.error "need either api key or oauth creds" :=
  ⟨(C6_createClient_precedence (fun s => if s = "bad" then none else some s)
      "t" "k" "id" "sec" "bad").1 (by decide),
    (C6_createClient_precedence (fun s => if s = "bad" then none else some s)
      "t" "k" "id" "sec" "https://x").2.1 "https://x" (by decide) (by decide) (by decide),
    (C6_createClient_precedence (fun s => if s = "bad" then none else some s)
      "t" "k" "id" "" "https://x").2.2.1 "https://x" (by decide) (by decide) (by decide),
    (C6_createClient_precedence (fun s => if s = "bad" then none else some s)
      "t" "" "" "" "https://x").2.2.2.1 "https://x" (by decide) (by decide) (by decide)⟩

theorem resolveRefs_no_devMatch (client : ClientM) (env : Env) (devices : List Device)
    (refs : List String) (h : ∀ ns ∈ refs, hasPfx ns "device:" = false) :
    ∀ x, Event.devMatch x ∉ (resolveRefs client env devices refs).1 := by
  induction refs with
  | nil => simp [resolveRefs]
  | cons ns rest ih =>
    intro x hmem
    have h1 := h ns (List.mem_cons_self ns rest)
    have ih2 := ih (fun y hy => h y (List.mem_cons_of_mem ns hy)) x
    by_cases hs : hasPfx ns "svc:" = true
    · cases hg : (getServiceIP client env.http ns).2 with
      | error err =>
        simp only [resolveRefs, hs, if_true, hg] at hmem
        rcases getServiceIP_events client env.http ns with hev | hev <;> rw [hev] at hmem <;>
          simp at hmem
      | ok ip =>
        simp only [resolveRefs, hs, if_true, hg, List.mem_append] at hmem
        rcases hmem with hm | hm
        · rcases getServiceIP_events client env.http ns with hev | hev <;> rw [hev] at hm <;>
            simp at hm
        · exact ih2 hm
    · simp only [resolveRefs, hs, h1, Bool.false_eq_true, if_false] at hmem
      exact ih2 hmem

theorem resolveDomains_no_devMatch (client : ClientM) (env : Env) (devices : List Device)
    (cfg : Config) (h : ∀ p ∈ cfg, ∀ ns ∈ p.2, hasPfx ns "device:" = false) :
    ∀ x, Event.devMatch x ∉ (resolveDomains client env devices cfg).1 := by
  induction cfg with
  | nil => simp [resolveDomains]
  | cons p rest ih =>
    intro x hmem
    rcases p with ⟨domain, nameservers⟩
    have h1 : ∀ ns ∈ nameservers, hasPfx ns "device:" = false := fun ns hns =>
      h _ (List.mem_cons_self _ _) ns hns
    have ih2 := ih (fun q hq => h q (List.mem_cons_of_mem _ hq)) x
    cases hr : (resolveRefs client env devices nameservers).2 with
    | error e =>
      simp only [resolveDomains, hr] at hmem
      exact resolveRefs_no_devMatch client env devices nameservers h1 x hmem
    | ok ips =>
      simp only [resolveDomains, hr, List.mem_append] at hmem
      rcases hmem with hm | hm
      · exact resolveRefs_no_devMatch client env devices nameservers h1 x hm
      · exact ih2 hm

theorem needsDevices_false_all (cfg : Config) (h : needsDevices cfg = false) :
    ∀ p ∈ cfg, ∀ ns ∈ p.2, hasPfx ns "device:" = false := by
  intro p hp ns hns
  cases hcase : hasPfx ns "device:" with
  | false => rfl
  | true => exact absurd ((needsDevices_iff cfg).mpr ⟨p, hp, ns, hns, hcase⟩) (by simp [h])

/-- C10: the pre-scan predicate is the `device:`-prefix test that also selects the
device branch, so device matching is never attempted against an unfetched device
list: whenever device resolution executes within a pass, the device-list fetch was
performed and succeeded; with no `device:` references, device resolution never
runs. -/
theorem C10_no_unfetched_device_matching (client : ClientM) (env : Env) (cfg : Config) :
    (∀ x, Event.devMatch x ∈ (resolveSplitDNS client env cfg).1 →
      needsDevices cfg = true ∧ Event.devFetch ∈ (resolveSplitDNS client env cfg).1 ∧
      ∃ devs, env.devList = Except.ok devs) ∧
    (needsDevices cfg = false →
      ∀ x, Event.devMatch x ∉ (resolveSplitDNS client env cfg).1) := by
  constructor
  · intro x hmem
    by_cases hnd : needsDevices cfg = true
    · cases hd : env.devList with
      | error e =>
        simp only [resolveSplitDNS, hnd, if_true, hd] at hmem
        simp at hmem
      | ok devs =>
        refine ⟨hnd, ?_, devs, rfl⟩
        simp only [resolveSplitDNS, hnd, if_true, hd]
        exact List.mem_cons_self _ _
    · exfalso
      have hF : needsDevices cfg = false := Bool.eq_false_iff.mpr hnd
      simp only [resolveSplitDNS, hF, Bool.false_eq_true, if_false] at hmem
      exact resolveDomains_no_devMatch client env [] cfg (needsDevices_false_all cfg hF) x hmem
  · intro hnd x hmem
    simp only [resolveSplitDNS, hnd, Bool.false_eq_true, if_false] at hmem
    exact resolveDomains_no_devMatch client env [] cfg (needsDevices_false_all cfg hnd) x hmem

/-- Witness for C10: in a run where device resolution executed, the fetch happened
and succeeded. -/
theorem C10_no_unfetched_device_matching_witness :
    needsDevices cfgBoth = true ∧
    Event.devFetch ∈ (resolveSplitDNS e2eClient e2eEnv cfgBoth).1 ∧
    ∃ devs, e2eEnv.devList = Except.ok devs :=
  (C10_no_unfetched_device_matching e2eClient e2eEnv cfgBoth).1 "test-device" (by decide)

theorem resolveRefs_cons_svc_ok (client : ClientM) (env : Env) (devices : List Device)
    (ns : String) (rest : List String) (ip : String) (hs : hasPfx ns "svc:" = true)
    (hg : (getServiceIP client env.http ns).2 = Except.ok ip) :
    resolveRefs client env devices (ns :: rest) =
      ((getServiceIP client env.http ns).1 ++ (resolveRefs client env devices rest).1,
        Except.map (fun ips => ip :: ips) (resolveRefs client env devices rest).2) := by
  simp only [resolveRefs, hs, if_true, hg]

theorem resolveRefs_cons_svc_err (client : ClientM) (env : Env) (devices : List Device)
    (ns : String) (rest : List String) (e : String) (hs : hasPfx ns "svc:" = true)
    (hg : (getServiceIP client env.http ns).2 = Except.error e) :
    resolveRefs client env devices (ns :: rest) =
      ((getServiceIP client env.http ns).1,
        Except.error ("resolving service " ++ ns ++ ": " ++ e)) := by
  simp only [resolveRefs, hs, if_true, hg]

theorem resolveRefs_cons_dev_ok (client : ClientM) (env : Env) (devices : List Device)
    (ns : String) (rest : List String) (ip : String) (hs : hasPfx ns "svc:" = false)
    (hd : hasPfx ns "device:" = true)
    (hg : getDeviceIP (trimPfx ns "device:") devices = Except.ok ip) :
    resolveRefs client env devices (ns :: rest) =
      (Event.devMatch (trimPfx ns "device:") :: (resolveRefs client env devices rest).1,
        Except.map (fun ips => ip :: ips) (resolveRefs client env devices rest).2) := by
  simp only [resolveRefs, hs, Bool.false_eq_true, if_false, hd, if_true, hg]

theorem resolveRefs_cons_dev_err (client : ClientM) (env : Env) (devices : List Device)
    (ns : String) (rest : List String) (e : String) (hs : hasPfx ns "svc:" = false)
    (hd : hasPfx ns "device:" = true)
    (hg : getDeviceIP (trimPfx ns "device:") devices = Except.error e) :
    resolveRefs client env devices (ns :: rest) =
      ([Event.devMatch (trimPfx ns "device:")],
        Except.error ("resolving device " ++ trimPfx ns "device:" ++ ": " ++ e)) := by
  simp only [resolveRefs, hs, Bool.false_eq_true, if_false, hd, if_true, hg]

theorem resolveRefs_cons_lit (client : ClientM) (env : Env) (devices : List Device)
    (ns : String) (rest : List String) (hs : hasPfx ns "svc:" = false)
    (hd : hasPfx ns "device:" = false) :
    resolveRefs client env devices (ns :: rest) =
      ((resolveRefs client env devices rest).1,
        Except.map (fun ips => ns :: ips) (resolveRefs client env devices rest).2) := by
  simp only [resolveRefs, hs, hd, Bool.false_eq_true, if_false]

theorem resolveDomains_cons_ok (client : ClientM) (env : Env) (devices : List Device)
    (domain : String) (nameservers : List String) (rest : Config) (ips : List String)
    (hr : (resolveRefs client env devices nameservers).2 = Except.ok ips) :
    resolveDomains client env devices ((domain, nameservers) :: rest) =
      ((resolveRefs client env devices nameservers).1 ++
        (resolveDomains client env devices rest).1,
        Except.map (fun tbl => (domain, ips) :: tbl)
          (resolveDomains client env devices rest).2) := by
  simp only [resolveDomains, hr]

theorem resolveDomains_cons_err (client : ClientM) (env : Env) (devices : List Device)
    (domain : String) (nameservers : List String) (rest : Config) (e : String)
    (hr : (resolveRefs client env devices nameservers).2 = Except.error e) :
    resolveDomains client env devices ((domain, nameservers) :: rest) =
      ((resolveRefs client env devices nameservers).1, Except.error e) := by
  simp only [resolveDomains, hr]

theorem svcURLs_append (a b : List Event) : svcURLs (a ++ b) = svcURLs a ++ svcURLs b := by
  simp [svcURLs]

theorem svcURLs_svcGet_cons (u : String) (l : List Event) :
    svcURLs (Event.svcGet u :: l) = u :: svcURLs l := by
  simp [svcURLs]

theorem svcURLs_devMatch_cons (x : String) (l : List Event) :
    svcURLs (Event.devMatch x :: l) = svcURLs l := by
  simp [svcURLs]

theorem devNames_append (a b : List Event) : devNames (a ++ b) = devNames a ++ devNames b := by
  simp [devNames]

theorem devNames_svcGet_cons (u : String) (l : List Event) :
    devNames (Event.svcGet u :: l) = devNames l := by
  simp [devNames]

theorem devNames_devMatch_cons (x : String) (l : List Event) :
    devNames (Event.devMatch x :: l) = x :: devNames l := by
  simp [devNames]

theorem resolveRefs_ok_svcURLs (client : ClientM) (env : Env) (devices : List Device)
    (refs : List String) :
    ∀ ips, (resolveRefs client env devices refs).2 = Except.ok ips →
      svcURLs (resolveRefs client env devices refs).1 =
        (refs.filter fun ns => hasPfx ns "svc:").map
          (serviceURL client.baseURL client.tailnet) := by
  induction refs with
  | nil =>
    intro ips h
    simp [resolveRefs, svcURLs]
  | cons ns rest ih =>
    intro ips h
    by_cases hs : hasPfx ns "svc:" = true
    · cases hg : (getServiceIP client env.http ns).2 with
      | error err =>
        rw [resolveRefs_cons_svc_err client env devices ns rest err hs hg] at h
        exact absurd h (by simp)
      | ok ip =>
        rw [resolveRefs_cons_svc_ok client env devices ns rest ip hs hg] at h ⊢
        cases hr : (resolveRefs client env devices rest).2 with
        | error e =>
          rw [hr] at h
          exact absurd h (by simp [Except.map])
        | ok ips2 =>
          rw [getServiceIP_events_ok client env.http ns ip hg, List.singleton_append,
            svcURLs_svcGet_cons, ih ips2 hr]
          simp [List.filter_cons, hs]
    · have hsF : hasPfx ns "svc:" = false := Bool.eq_false_iff.mpr hs
      by_cases hd : hasPfx ns "device:" = true
      · cases hg : getDeviceIP (trimPfx ns "device:") devices with
        | error e =>
          rw [resolveRefs_cons_dev_err client env devices ns rest e hsF hd hg] at h
          exact absurd h (by simp)
        | ok ip =>
          rw [resolveRefs_cons_dev_ok client env devices ns rest ip hsF hd hg] at h ⊢
          cases hr : (resolveRefs client env devices rest).2 with
          | error e =>
            rw [hr] at h
            exact absurd h (by simp [Except.map])
          | ok ips2 =>
            rw [svcURLs_devMatch_cons, ih ips2 hr]
            simp [List.filter_cons, hsF]
      · have hdF : hasPfx ns "device:" = false := Bool.eq_false_iff.mpr hd
        rw [resolveRefs_cons_lit client env devices ns rest hsF hdF] at h ⊢
        cases hr : (resolveRefs client env devices rest).2 with
        | error e =>
          rw [hr] at h
          exact absurd h (by simp [Except.map])
        | ok ips2 =>
          rw [ih ips2 hr]
          simp [List.filter_cons, hsF]

theorem resolveRefs_ok_devNames (client : ClientM) (env : Env) (devices : List Device)
    (refs : List String) :
    ∀ ips, (resolveRefs client env devices refs).2 = Except.ok ips →
      devNames (resolveRefs client env devices refs).1 =
        (refs.filter fun ns => hasPfx ns "device:").map
          (fun ns => trimPfx ns "device:") := by
  induction refs with
  | nil =>
    intro ips h
    simp [resolveRefs, devNames]
  | cons ns rest ih =>
    intro ips h
    by_cases hs : hasPfx ns "svc:" = true
    · have hdF : hasPfx ns "device:" = false := hasPfx_svc_not_device ns hs
      cases hg : (getServiceIP client env.http ns).2 with
      | error err =>
        rw [resolveRefs_cons_svc_err client env devices ns rest err hs hg] at h
        exact absurd h (by simp)
      | ok ip =>
        rw [resolveRefs_cons_svc_ok client env devices ns rest ip hs hg] at h ⊢
        cases hr : (resolveRefs client env devices rest).2 with
        | error e =>
          rw [hr] at h
          exact absurd h (by simp [Except.map])
        | ok ips2 =>
          rw [getServiceIP_events_ok client env.http ns ip hg, List.singleton_append,
            devNames_svcGet_cons, ih ips2 hr]
          simp [List.filter_cons, hdF]
    · have hsF : hasPfx ns "svc:" = false := Bool.eq_false_iff.mpr hs
      by_cases hd : hasPfx ns "device:" = true
      · cases hg : getDeviceIP (trimPfx ns "device:") devices with
        | error e =>
          rw [resolveRefs_cons_dev_err client env devices ns rest e hsF hd hg] at h
          exact absurd h (by simp)
        | ok ip =>
          rw [resolveRefs_cons_dev_ok client env devices ns rest ip hsF hd hg] at h ⊢
          cases hr : (resolveRefs client env devices rest).2 with
          | error e =>
            rw [hr] at h
            exact absurd h (by simp [Except.map])
          | ok ips2 =>
            rw [devNames_devMatch_cons, ih ips2 hr]
            simp [List.filter_cons, hd]
      · have hdF : hasPfx ns "device:" = false := Bool.eq_false_iff.mpr hd
        rw [resolveRefs_cons_lit client env devices ns rest hsF hdF] at h ⊢
        cases hr : (resolveRefs client env devices rest).2 with
        | error e =>
          rw [hr] at h
          exact absurd h (by simp [Except.map])
        | ok ips2 =>
          rw [ih ips2 hr]
          simp [List.filter_cons, hdF]

theorem resolveDomains_ok_svcURLs (client : ClientM) (env : Env) (devices : List Device)
    (cfg : Config) :
    ∀ tbl, (resolveDomains client env devices cfg).2 = Except.ok tbl →
      svcURLs (resolveDomains client env devices cfg).1 =
        ((cfg.map fun p => p.2.filter fun ns => hasPfx ns "svc:").flatten).map
          (serviceURL client.baseURL client.tailnet) := by
  induction cfg with
  | nil =>
    intro tbl h
    simp [resolveDomains, svcURLs]
  | cons p rest ih =>
    intro tbl h
    rcases p with ⟨domain, nameservers⟩
    cases hr : (resolveRefs client env devices nameservers).2 with
    | error e =>
      rw [resolveDomains_cons_err client env devices domain nameservers rest e hr] at h
      exact absurd h (by simp)
    | ok ips =>
      rw [resolveDomains_cons_ok client env devices domain nameservers rest ips hr] at h ⊢
      cases hrr : (resolveDomains client env devices rest).2 with
      | error e =>
        rw [hrr] at h
        exact absurd h (by simp [Except.map])
      | ok tbl2 =>
        rw [svcURLs_append, resolveRefs_ok_svcURLs client env devices nameservers ips hr,
          ih tbl2 hrr]
        simp

theorem resolveDomains_ok_devNames (client : ClientM) (env : Env) (devices : List Device)
    (cfg : Config) :
    ∀ tbl, (resolveDomains client env devices cfg).2 = Except.ok tbl →
      devNames (resolveDomains client env devices cfg).1 =
        ((cfg.map fun p => p.2.filter fun ns => hasPfx ns "device:").flatten).map
          (fun ns => trimPfx ns "device:") := by
  induction cfg with
  | nil =>
    intro tbl h
    simp [resolveDomains, devNames]
  | cons p rest ih =>
    intro tbl h
    rcases p with ⟨domain, nameservers⟩
    cases hr : (resolveRefs client env devices nameservers).2 with
    | error e =>
      rw [resolveDomains_cons_err client env devices domain nameservers rest e hr] at h
      exact absurd h (by simp)
    | ok ips =>
      rw [resolveDomains_cons_ok client env devices domain nameservers rest ips hr] at h ⊢
      cases hrr : (resolveDomains client env devices rest).2 with
      | error e =>
        rw [hrr] at h
        exact absurd h (by simp [Except.map])
      | ok tbl2 =>
        rw [devNames_append, resolveRefs_ok_devNames client env devices nameservers ips hr,
          ih tbl2 hrr]
        simp

theorem svcURLs_devFetch_cons (l : List Event) :
    svcURLs (Event.devFetch :: l) = svcURLs l := by
  simp [svcURLs]

theorem devNames_devFetch_cons (l : List Event) :
    devNames (Event.devFetch :: l) = devNames l := by
  simp [devNames]

theorem resolveSplitDNS_ok_svcURLs (client : ClientM) (env : Env) (cfg : Config)
    (tbl : SplitDNSRequest) (h : (resolveSplitDNS client env cfg).2 = Except.ok tbl) :
    svcURLs (resolveSplitDNS client env cfg).1 =
      ((cfg.map fun p => p.2.filter fun ns => hasPfx ns "svc:").flatten).map
        (serviceURL client.baseURL client.tailnet) := by
  by_cases hnd : needsDevices cfg = true
  · cases hd : env.devList with
    | error e =>
      simp only [resolveSplitDNS, hnd, if_true, hd] at h
      exact absurd h (by simp)
    | ok devices =>
      simp only [resolveSplitDNS, hnd, if_true, hd] at h ⊢
      rw [svcURLs_devFetch_cons]
      exact resolveDomains_ok_svcURLs client env devices cfg tbl h
  · simp only [resolveSplitDNS, hnd, Bool.false_eq_true, if_false] at h ⊢
    exact resolveDomains_ok_svcURLs client env [] cfg tbl h

theorem resolveSplitDNS_ok_devNames (client : ClientM) (env : Env) (cfg : Config)
    (tbl : SplitDNSRequest) (h : (resolveSplitDNS client env cfg).2 = Except.ok tbl) :
    (∃ devices, env.devList = Except.ok devices ∧
      devNames (resolveSplitDNS client env cfg).1 =
        ((cfg.map fun p => p.2.filter fun ns => hasPfx ns "device:").flatten).map
          (fun ns => trimPfx ns "device:")) ∨
    (needsDevices cfg = false ∧
      devNames (resolveSplitDNS client env cfg).1 =
        ((cfg.map fun p => p.2.filter fun ns => hasPfx ns "device:").flatten).map
          (fun ns => trimPfx ns "device:")) := by
  by_cases hnd : needsDevices cfg = true
  · cases hd : env.devList with
    | error e =>
      simp only [resolveSplitDNS, hnd, if_true, hd] at h
      exact absurd h (by simp)
    | ok devices =>
      simp only [resolveSplitDNS, hnd, if_true, hd] at h
      refine Or.inl ⟨devices, rfl, ?_⟩
      simp only [resolveSplitDNS, hnd, if_true, hd]
      rw [devNames_devFetch_cons]
      exact resolveDomains_ok_devNames client env devices cfg tbl h
  · have hndF : needsDevices cfg = false := Bool.eq_false_iff.mpr hnd
    refine Or.inr ⟨hndF, ?_⟩
    simp only [resolveSplitDNS, hnd, Bool.false_eq_true, if_false] at h ⊢
    exact resolveDomains_ok_devNames client env [] cfg tbl h

/-- C8: within one successful resolution pass, the number of remote service lookups
performed equals the number of `svc:`-prefixed reference occurrences across all
domains: each occurrence triggers exactly one lookup, with no caching or
deduplication of repeated identical references. -/
theorem C8_one_lookup_per_svc_ref (client : ClientM) (env : Env) (cfg : Config)
    (tbl : SplitDNSRequest) (h : (resolveSplitDNS client env cfg).2 = Except.ok tbl) :
    (svcURLs (resolveSplitDNS client env cfg).1).length = svcRefCount cfg := by
  rw [resolveSplitDNS_ok_svcURLs client env cfg tbl h]
  simp [svcRefCount, List.length_flatten, List.map_map, Function.comp_def, List.length_map]

/-- Witness for C8 at a config repeating the same `svc:` reference twice: two
lookups are performed. -/
theorem C8_one_lookup_per_svc_ref_witness :
    (svcURLs (resolveSplitDNS e2eClient e2eEnv cfgDup).1).length = svcRefCount cfgDup :=
  C8_one_lookup_per_svc_ref e2eClient e2eEnv cfgDup
    [("a.example.com", ["100.64.0.1", "100.64.0.1"])] (by decide)

/-- C9: in one successful pass, the service lookups are keyed by the full reference
string verbatim — the `svc:` prefix included — which appears unmodified inside the
request URL; device matching is performed on the reference with the `device:`
prefix removed. -/
theorem C9_lookup_keys (client : ClientM) (env : Env) (cfg : Config)
    (tbl : SplitDNSRequest) (h : (resolveSplitDNS client env cfg).2 = Except.ok tbl) :
    (svcURLs (resolveSplitDNS client env cfg).1 =
      ((cfg.map fun p => p.2.filter fun ns => hasPfx ns "svc:").flatten).map
        (serviceURL client.baseURL client.tailnet)) ∧
    (∀ ns, ∃ pre post, serviceURL client.baseURL client.tailnet ns = pre ++ ns ++ post) ∧
    (devNames (resolveSplitDNS client env cfg).1 =
      ((cfg.map fun p => p.2.filter fun ns => hasPfx ns "device:").flatten).map
        (fun ns => trimPfx ns "device:")) ∧
    (∀ s, trimPfx ("device:" ++ s) "device:" = s) := by
  refine ⟨resolveSplitDNS_ok_svcURLs client env cfg tbl h, ?_, ?_,
    fun s => trimPfx_append _ s⟩
  · intro ns
    exact ⟨client.baseURL ++ "/api/v2/tailnet/" ++ client.tailnet ++ "/services/", "/", rfl⟩
  · rcases resolveSplitDNS_ok_devNames client env cfg tbl h with ⟨devs, _, hh⟩ | ⟨_, hh⟩ <;>
      exact hh

/-- Witness for C9 at a config with one service and one device reference. -/
theorem C9_lookup_keys_witness :
    svcURLs (resolveSplitDNS e2eClient e2eEnv cfgBoth).1 =
      ((cfgBoth.map fun p => p.2.filter fun ns => hasPfx ns "svc:").flatten).map
        (serviceURL e2eClient.baseURL e2eClient.tailnet) ∧
    devNames (resolveSplitDNS e2eClient e2eEnv cfgBoth).1 =
      ((cfgBoth.map fun p => p.2.filter fun ns => hasPfx ns "device:").flatten).map
        (fun ns => trimPfx ns "device:") :=
  ⟨(C9_lookup_keys e2eClient e2eEnv cfgBoth
      [("s.example.com", ["100.64.0.1"]), ("d.example.com", ["100.64.0.2"])] (by decide)).1,
    (C9_lookup_keys e2eClient e2eEnv cfgBoth
      [("s.example.com", ["100.64.0.1"]), ("d.example.com", ["100.64.0.2"])] (by decide)).2.2.1⟩

theorem daemonTicks_mem (cycle : Nat → Except String Unit) :
    ∀ (fuel start k : Nat) (e : String),
      (k, e) ∈ daemonTicks cycle start fuel ↔
        (start ≤ k ∧ k < start + fuel ∧ cycle k = Except.error e) := by
  intro fuel
  induction fuel with
  | zero =>
    intro start k e
    rw [daemonTicks]
    refine iff_of_false (List.not_mem_nil _) ?_
    rintro ⟨h1, h2, h3⟩
    omega
  | succ n ih =>
    intro start k e
    cases hc : cycle start with
    | error err =>
      rw [daemonTicks]
      rw [hc]
      simp only [List.mem_cons, ih (start + 1) k e, Prod.mk.injEq]
      constructor
      · rintro (⟨hk, he⟩ | ⟨h1, h2, h3⟩)
        · subst hk
          subst he
          exact ⟨Nat.le_refl _, by omega, hc⟩
        · exact ⟨by omega, by omega, h3⟩
      · rintro ⟨h1, h2, h3⟩
        by_cases hks : k = start
        · subst hks
          rw [hc] at h3
          exact Or.inl ⟨rfl, (Except.error.inj h3).symm⟩
        · exact Or.inr ⟨by omega, by omega, h3⟩
    | ok u =>
      rw [daemonTicks]
      rw [hc]
      simp only [ih (start + 1) k e]
      constructor
      · rintro ⟨h1, h2, h3⟩
        exact ⟨by omega, by omega, h3⟩
      · rintro ⟨h1, h2, h3⟩
        refine ⟨?_, by omega, h3⟩
        by_cases hks : k = start
        · subst hks
          rw [hc] at h3
          exact absurd h3 (by simp)
        · omega

/-- C7: in one-shot mode (interval 0) any failure of config load, client
construction, or the single cycle makes the process exit non-zero, and the run
completes cleanly exactly when all three succeed; in daemon mode (positive
interval) every observed tick runs regardless of earlier cycle failures — the error of a tick is collected and the next tick still fires — and a fatal exit can only come
from config load or client construction, never from a cycle failure. -/
theorem C7_run_loop_modes (parse : String → Option String)
    (tailnet apiKey clientID clientSecret baseURL : String)
    (configR : Except String Config) (interval : Nat) (envs : Nat → Env)
    (setters : Nat → SplitDNSRequest → Except String Unit) (fuel : Nat) :
    (interval = 0 →
      ((runMain parse tailnet apiKey clientID clientSecret baseURL configR interval
          envs setters fuel).isFatal = true ∨
        runMain parse tailnet apiKey clientID clientSecret baseURL configR interval
          envs setters fuel = RunResult.oneShotDone) ∧
      (runMain parse tailnet apiKey clientID clientSecret baseURL configR interval
          envs setters fuel = RunResult.oneShotDone ↔
        ∃ cfg client, configR = Except.ok cfg ∧
          createClient parse tailnet apiKey clientID clientSecret baseURL =
            Except.ok client ∧
          (updateDNS client (envs 0) (setters 0) cfg).2 = Except.ok ())) ∧
    (interval > 0 → ∀ cfg client, configR = Except.ok cfg →
      createClient parse tailnet apiKey clientID clientSecret baseURL = Except.ok client →
      (runMain parse tailnet apiKey clientID clientSecret baseURL configR interval
          envs setters fuel =
        RunResult.daemonAlive
          (daemonTicks (fun n => (updateDNS client (envs n) (setters n) cfg).2) 0 fuel)) ∧
      (∀ k e, (k, e) ∈
          daemonTicks (fun n => (updateDNS client (envs n) (setters n) cfg).2) 0 fuel ↔
        (k < fuel ∧ (updateDNS client (envs k) (setters k) cfg).2 = Except.error e))) ∧
    (interval > 0 →
      (runMain parse tailnet apiKey clientID clientSecret baseURL configR interval
          envs setters fuel).isFatal = true →
      (∃ e, configR = Except.error e) ∨
      (∃ e, createClient parse tailnet apiKey clientID clientSecret baseURL =
        Except.error e)) := by
  refine ⟨?_, ?_, ?_⟩
  · intro h0
    subst h0
    constructor
    · cases hcfg : configR with
      | error e => exact Or.inl (by simp [runMain, hcfg, RunResult.isFatal])
      | ok cfg =>
        cases hcl : createClient parse tailnet apiKey clientID clientSecret baseURL with
        | error e => exact Or.inl (by simp [runMain, hcfg, hcl, RunResult.isFatal])
        | ok client =>
          cases hu : (updateDNS client (envs 0) (setters 0) cfg).2 with
          | error e => exact Or.inl (by simp [runMain, hcfg, hcl, hu, RunResult.isFatal])
          | ok u => exact Or.inr (by cases u; simp [runMain, hcfg, hcl, hu])
    · constructor
      · intro hdone
        cases hcfg : configR with
        | error e => simp [runMain, hcfg] at hdone
        | ok cfg =>
          cases hcl : createClient parse tailnet apiKey clientID clientSecret baseURL with
          | error e => simp [runMain, hcfg, hcl] at hdone
          | ok client =>
            cases hu : (updateDNS client (envs 0) (setters 0) cfg).2 with
            | error e => simp [runMain, hcfg, hcl, hu] at hdone
            | ok u =>
              cases u
              exact ⟨cfg, client, rfl, rfl, hu⟩
      · rintro ⟨cfg, client, hcfg, hcl, hu⟩
        simp [runMain, hcfg, hcl, hu]
  · intro hpos cfg client hcfg hcl
    constructor
    · simp [runMain, hcfg, hcl, hpos]
    · intro k e
      have hmem := daemonTicks_mem
        (fun n => (updateDNS client (envs n) (setters n) cfg).2) fuel 0 k e
      simpa using hmem
  · intro hpos hfatal
    cases hcfg : configR with
    | error e => exact Or.inl ⟨e, rfl⟩
    | ok cfg =>
      cases hcl : createClient parse tailnet apiKey clientID clientSecret baseURL with
      | error e => exact Or.inr ⟨e, rfl⟩
      | ok client =>
        exfalso
        simp [runMain, hcfg, hcl, hpos, RunResult.isFatal] at hfatal

/-- Witness for C7: with a failing submit endpoint, the daemon stays alive, tick 1
still fires and records its error after tick 0 failed, and one-shot mode does not
complete cleanly on the same failing cycle. -/
theorem C7_run_loop_modes_witness :
    (runMain (fun s => some s) "t" "k" "" "" "https://x" (Except.ok cfgLit) 1
        (fun _ => litEnv) (fun _ _ => Except.error "submit down") 2 =
      RunResult.daemonAlive
        (daemonTicks (fun n => (updateDNS ⟨"t", "https://x", "k", none⟩
          ((fun _ => litEnv) n) ((fun _ _ => Except.error "submit down") n) cfgLit).2) 0 2)) ∧
    ((1, "updating split DNS: " ++ "submit down") ∈
      daemonTicks (fun n => (updateDNS ⟨"t", "https://x", "k", none⟩
        ((fun _ => litEnv) n) ((fun _ _ => Except.error "submit down") n) cfgLit).2) 0 2) ∧
    runMain (fun s => some s) "t" "k" "" "" "https://x" (Except.ok cfgLit) 0
        (fun _ => litEnv) (fun _ _ => Except.error "submit down") 1 ≠
      RunResult.oneShotDone := by
  refine ⟨?_, ?_, ?_⟩
  · exact ((C7_run_loop_modes (fun s => some s) "t" "k" "" "" "https://x"
      (Except.ok cfgLit) 1 (fun _ => litEnv) (fun _ _ => Except.error "submit down") 2).2.1
      (by decide) cfgLit ⟨"t", "https://x", "k", none⟩ rfl (by decide)).1
  · exact (((C7_run_loop_modes (fun s => some s) "t" "k" "" "" "https://x"
      (Except.ok cfgLit) 1 (fun _ => litEnv) (fun _ _ => Except.error "submit down") 2).2.1
      (by decide) cfgLit ⟨"t", "https://x", "k", none⟩ rfl (by decide)).2 1
      ("updating split DNS: " ++ "submit down")).mpr ⟨by decide, by decide⟩
  · intro hdone
    rcases (((C7_run_loop_modes (fun s => some s) "t" "k" "" "" "https://x"
        (Except.ok cfgLit) 0 (fun _ => litEnv) (fun _ _ => Except.error "submit down") 1).1
        rfl).2).mp hdone with ⟨cfg, client, h1, h2, h3⟩
    cases Except.ok.inj h1
    have hcl : createClient (fun s => some s) "t" "k" "" "" "https://x" =
        Except.ok ⟨"t", "https://x", "k", none⟩ := by decide
    rw [hcl] at h2
    cases Except.ok.inj h2
    exact absurd h3 (by decide)
